import Mathlib

/-!
Verification of the donation-request lifecycle and authorization model of the
blood-connect server (an Express + MongoDB REST backend).

The server code is shallowly embedded: MongoDB documents become association
lists from field names to JS-like values, a collection becomes a list of
documents, and each Express route handler becomes a Lean function from the
relevant collections and request data to an HTTP response together with the
collection state after the call.  The route bodies below are direct
translations of the handlers in the source file (the single `index.js`):
the ObjectId validity checks, the order of the precondition checks, the exact
error codes and messages, and the update filters are all taken from the code.
-/

namespace BloodConnect

/-- JS-like field value: enough of the JavaScript value universe to express
the payloads the routes inspect (strings, numbers, booleans, null). -/
inductive Value where
  | vStr (s : String)
  | vNum (n : Int)
  | vBool (b : Bool)
  | vNull
  deriving DecidableEq, Repr

/-- JS truthiness of a value ("" and 0 and false and null are falsy). -/
def Value.truthy : Value → Bool
  | .vStr s => !(s == "")
  | .vNum n => !(n == 0)
  | .vBool b => b
  | .vNull => false

/-- JS truthiness of a possibly-absent field (an absent field is undefined,
which is falsy). -/
def truthyOpt : Option Value → Bool
  | none => false
  | some v => v.truthy

/-- JS string coercion of a possibly-absent value, as used by a template
literal interpolating a record field. -/
def displayOpt : Option Value → String
  | none => "undefined"
  | some (.vStr s) => s
  | some (.vNum n) => toString n
  | some (.vBool b) => if b then "true" else "false"
  | some .vNull => "null"

/-- A document: association list from field names to values.  Lookup reads
the first occurrence of a key, mirroring a JS object with unique keys. -/
abbrev Doc := List (String × Value)

/-- Field lookup in a document. -/
def Doc.get (d : Doc) (k : String) : Option Value :=
  match d with
  | [] => none
  | kv :: rest => if kv.1 = k then some kv.2 else Doc.get rest k

/-- Set one field of a document (replace the first occurrence of the key,
or append the binding when the key is absent). -/
def Doc.setField (d : Doc) (k : String) (v : Value) : Doc :=
  match d with
  | [] => [(k, v)]
  | kv :: rest => if kv.1 = k then (k, v) :: rest else kv :: Doc.setField rest k v

/-- Merge-update: apply every field of the update payload in order.  This is
the effect of a MongoDB set-update on one document. -/
def Doc.setFields (d : Doc) (fields : Doc) : Doc :=
  match fields with
  | [] => d
  | kv :: rest => Doc.setFields (d.setField kv.1 kv.2) rest

/-- Equality filter: a document matches a filter when every field listed in
the filter is present with exactly that value. -/
def Doc.matchesFilter (d : Doc) (f : Doc) : Bool :=
  f.all (fun kv => decide (d.get kv.1 = some kv.2))

/-- A collection of documents, in insertion order. -/
abbrev Collection := List Doc

/-- MongoDB findOne: the first document matching the filter. -/
def Collection.findOne (coll : Collection) (q : Doc) : Option Doc :=
  match coll with
  | [] => none
  | d :: rest => if d.matchesFilter q then some d else Collection.findOne rest q

/-- MongoDB updateOne with a set-update: merge the fields into the first
document matching the filter, leave everything else unchanged. -/
def Collection.updateOne (coll : Collection) (q : Doc) (fields : Doc) : Collection :=
  match coll with
  | [] => []
  | d :: rest =>
    if d.matchesFilter q then d.setFields fields :: rest
    else d :: Collection.updateOne rest q fields

/-- MongoDB deleteOne: remove the first document matching the filter. -/
def Collection.deleteOne (coll : Collection) (q : Doc) : Collection :=
  match coll with
  | [] => []
  | d :: rest => if d.matchesFilter q then rest else d :: Collection.deleteOne rest q

/-- Hexadecimal digit test, as used by ObjectId validity. -/
def isHexDigit (c : Char) : Bool :=
  ('0' ≤ c && c ≤ '9') || ('a' ≤ c && c ≤ 'f') || ('A' ≤ c && c ≤ 'F')

/-- Validity test of a MongoDB ObjectId string: a 24-character hexadecimal
string (or a raw 12-byte string).  `new ObjectId(id)` throws exactly when
this is false, and `ObjectId.isValid(id)` returns this value. -/
def isValidObjectId (s : String) : Bool :=
  s.length == 12 || (s.length == 24 && s.toList.all isHexDigit)

/-- An HTTP response: status code and the message of the JSON body (empty
for a success response, whose body is the raw driver result). -/
structure HttpResp where
  code : Nat
  message : String
  deriving DecidableEq, Repr

/-- Filter on the path-parameter id, as built by the routes:
`{ _id: new ObjectId(id) }`. -/
def idQuery (idStr : String) : Doc := [("_id", Value.vStr idStr)]

/-- Filter on a user email: `{ email: ... }`. -/
def emailQuery (email : String) : Doc := [("email", Value.vStr email)]

/-- Role of the caller's stored user record, freshly loaded per request
(`userCollection.findOne({email}).role`, undefined when absent). -/
def userRole (users : Collection) (email : String) : Option Value :=
  (users.findOne (emailQuery email)).bind (fun u => u.get "role")

/-- Status of the caller's stored user record (undefined when absent). -/
def userStatus (users : Collection) (email : String) : Option Value :=
  (users.findOne (emailQuery email)).bind (fun u => u.get "status")

/-- Read phase of PATCH /donation-requests/confirm/:id.  Returns the error
response when a precondition fails, in the source's order: malformed id
(the ObjectId constructor throws, caught as 500), missing record (404),
status other than pending (400 naming the current status), and
self-confirmation (403).  Returns none when all checks pass. -/
def confirmCheck (requests : Collection) (callerEmail idStr : String) : Option HttpResp :=
  if isValidObjectId idStr then
    match requests.findOne (idQuery idStr) with
    | none => some { code := 404, message := "Request not found." }
    | some request =>
      if request.get "status" ≠ some (Value.vStr "pending") then
        some { code := 400,
               message := "This request is already " ++ displayOpt (request.get "status") ++ "." }
      else if request.get "requesterEmail" = some (Value.vStr callerEmail) then
        some { code := 403, message := "You cannot donate to your own request." }
      else
        none
  else
    some { code := 500, message := "Failed to confirm donation." }

/-- Fields written by a successful Confirm: status inprogress plus the donor
name and email from the request body. -/
def confirmWriteFields (donorName donorEmail : Value) : Doc :=
  [("status", Value.vStr "inprogress"), ("donorName", donorName), ("donorEmail", donorEmail)]

/-- Write phase of Confirm: `updateOne({_id: new ObjectId(id)}, {$set: ...})`.
The filter is only the id — the pending status is not re-asserted here. -/
def confirmWrite (requests : Collection) (idStr : String) (donorName donorEmail : Value) :
    Collection :=
  requests.updateOne (idQuery idStr) (confirmWriteFields donorName donorEmail)

/-- PATCH /donation-requests/confirm/:id, after the authentication
middleware: read phase then, when no check failed, the write phase.  No
role middleware guards this route. -/
def confirmRoute (requests : Collection) (callerEmail idStr : String)
    (donorName donorEmail : Value) : HttpResp × Collection :=
  match confirmCheck requests callerEmail idStr with
  | some resp => (resp, requests)
  | none => ({ code := 200, message := "" }, confirmWrite requests idStr donorName donorEmail)

/-- Classification used by PATCH /donation-requests/:id:
`Object.keys(updateData).length === 1 && updateData.status` — exactly one
key, and a truthy status value. -/
def isStatusOnlyUpdate (updateData : Doc) : Bool :=
  updateData.length == 1 && truthyOpt (updateData.get "status")

/-- PATCH /donation-requests/:id: validate the id (400 on malformed), load
the record (404 when absent), load the caller's user record, then branch on
the payload shape: a status-only update needs owner or admin or volunteer,
any other payload needs owner or admin; otherwise apply the merge-update. -/
def updateRoute (users requests : Collection) (callerEmail idStr : String)
    (updateData : Doc) : HttpResp × Collection :=
  if isValidObjectId idStr then
    match requests.findOne (idQuery idStr) with
    | none => ({ code := 404, message := "Request not found." }, requests)
    | some request =>
      let role := userRole users callerEmail
      if isStatusOnlyUpdate updateData then
        if request.get "requesterEmail" ≠ some (Value.vStr callerEmail) ∧
            role ≠ some (Value.vStr "admin") ∧ role ≠ some (Value.vStr "volunteer") then
          ({ code := 403, message := "Forbidden: Not authorized to update status." }, requests)
        else
          ({ code := 200, message := "" }, requests.updateOne (idQuery idStr) updateData)
      else
        if request.get "requesterEmail" ≠ some (Value.vStr callerEmail) ∧
            role ≠ some (Value.vStr "admin") then
          ({ code := 403, message := "Forbidden: Not authorized to edit this request." }, requests)
        else
          ({ code := 200, message := "" }, requests.updateOne (idQuery idStr) updateData)
  else
    ({ code := 400, message := "Invalid ID format." }, requests)

/-- DELETE /donation-requests/:id: no ObjectId validity check in the source,
so a malformed id makes the constructor throw and the catch answers 500;
otherwise 404 when absent, 403 unless the caller is the owner or an admin,
else delete. -/
def deleteRoute (users requests : Collection) (callerEmail idStr : String) :
    HttpResp × Collection :=
  if isValidObjectId idStr then
    match requests.findOne (idQuery idStr) with
    | none => ({ code := 404, message := "Request not found." }, requests)
    | some request =>
      let role := userRole users callerEmail
      if request.get "requesterEmail" ≠ some (Value.vStr callerEmail) ∧
          role ≠ some (Value.vStr "admin") then
        ({ code := 403, message := "Forbidden: Not authorized to delete this request." }, requests)
      else
        ({ code := 200, message := "" }, requests.deleteOne (idQuery idStr))
  else
    ({ code := 500, message := "Failed to delete request." }, requests)

/-- POST /donation-requests: reject a blocked caller with 403, otherwise
insert the request body verbatim (the source inserts `req.body` as is). -/
def createRoute (users requests : Collection) (callerEmail : String) (body : Doc) :
    HttpResp × Collection :=
  if userStatus users callerEmail = some (Value.vStr "blocked") then
    ({ code := 403,
       message := "Access Denied: Blocked users cannot create donation requests." }, requests)
  else
    ({ code := 201, message := "" }, requests ++ [body])

/-- Sort key of a donation request: its creation timestamp (a number in the
stored documents; 0 when absent). -/
def createdAtKey (d : Doc) : Int :=
  match d.get "createdAt" with
  | some (Value.vNum n) => n
  | _ => 0

/-- Comparator realizing the sort option on createdAt descending
(newest first): a may come before b. -/
def newestFirst (a b : Doc) : Bool :=
  decide (createdAtKey b ≤ createdAtKey a)

/-- Insertion into a list sorted by createdAt descending, keeping an element
already in place ahead of the inserted one when the order allows it. -/
def insertByNewest (d : Doc) : List Doc → List Doc
  | [] => [d]
  | e :: rest => if newestFirst e d then e :: insertByNewest d rest else d :: e :: rest

/-- Sort by createdAt descending (the effect of the sort option
`{ createdAt: -1 }` on the result set). -/
def sortByNewest : List Doc → List Doc
  | [] => []
  | d :: rest => insertByNewest d (sortByNewest rest)

/-- Filter built by GET /donation-requests/my-requests: the caller's email,
plus the status query parameter when it is a non-empty string other than
the sentinel all. -/
def myRequestsQuery (callerEmail : String) (statusQ : Option String) : Doc :=
  [("requesterEmail", Value.vStr callerEmail)] ++
    (match statusQ with
     | some s => if s ≠ "" ∧ s ≠ "all" then [("status", Value.vStr s)] else []
     | none => [])

/-- GET /donation-requests/my-requests: find by the filter above, sort by
createdAt descending, and cap at the limit when it is positive
(`parseInt(req.query.limit) || 0`, with the limit applied only when
strictly positive). -/
def myRequestsRoute (requests : Collection) (callerEmail : String)
    (statusQ : Option String) (limit : Int) : List Doc :=
  let q := myRequestsQuery callerEmail statusQ
  let sorted := sortByNewest (requests.filter (fun d => d.matchesFilter q))
  if limit > 0 then sorted.take limit.toNat else sorted

/-! Sample documents used to instantiate the theorems below on concrete
inputs. -/

/-- A well-formed ObjectId string (24 hexadecimal characters). -/
def vid : String := "aaaaaaaaaaaaaaaaaaaaaaaa"

/-- A second well-formed ObjectId string. -/
def vid2 : String := "bbbbbbbbbbbbbbbbbbbbbbbb"

/-- A pending donation request owned by owner at x. -/
def pendingReq : Doc :=
  [("_id", Value.vStr vid), ("requesterEmail", Value.vStr "owner@x"),
   ("status", Value.vStr "pending"), ("createdAt", Value.vNum 1)]

/-- A finished donation request of the same owner, created later. -/
def doneReq : Doc :=
  [("_id", Value.vStr vid2), ("requesterEmail", Value.vStr "owner@x"),
   ("status", Value.vStr "done"), ("createdAt", Value.vNum 5)]

/-- A stored user record with role volunteer. -/
def volunteerU : Doc :=
  [("email", Value.vStr "v@x"), ("role", Value.vStr "volunteer"),
   ("status", Value.vStr "active")]

/-- A stored user record with role admin. -/
def adminU : Doc :=
  [("email", Value.vStr "admin@x"), ("role", Value.vStr "admin"),
   ("status", Value.vStr "active")]

/-- A stored user record with role admin and status blocked. -/
def blockedAdminU : Doc :=
  [("email", Value.vStr "b@x"), ("role", Value.vStr "admin"),
   ("status", Value.vStr "blocked")]

/-- A stored user record with role donor and status active. -/
def donorU : Doc :=
  [("email", Value.vStr "c@x"), ("role", Value.vStr "donor"),
   ("status", Value.vStr "active")]

/-! Helper lemmas about documents, collections and the sort. -/

/-- Setting a field and reading it back yields the new value. -/
theorem Doc.get_setField_self (d : Doc) (k : String) (v : Value) :
    (d.setField k v).get k = some v := by
  induction d with
  | nil => simp [Doc.setField, Doc.get]
  | cons kv rest ih =>
    rw [Doc.setField]
    by_cases h : kv.1 = k
    · simp [h, Doc.get]
    · simp [Doc.get, h, ih]

/-- Setting a field leaves every other field unchanged. -/
theorem Doc.get_setField_ne (d : Doc) (k : String) (v : Value) (g : String)
    (h : k ≠ g) : (d.setField k v).get g = d.get g := by
  induction d with
  | nil => simp [Doc.setField, Doc.get, h]
  | cons kv rest ih =>
    rw [Doc.setField]
    by_cases hk : kv.1 = k
    · simp [Doc.get, h, hk]
    · simp [Doc.get, hk, ih]

/-- A merge-update not mentioning a key leaves that key unchanged. -/
theorem Doc.get_setFields_of_not_mem (fields : Doc) (d : Doc) (k : String)
    (h : ∀ kv ∈ fields, kv.1 ≠ k) : (d.setFields fields).get k = d.get k := by
  induction fields generalizing d with
  | nil => rfl
  | cons kv rest ih =>
    rw [Doc.setFields]
    rw [ih _ (fun x hx => h x (List.mem_cons_of_mem kv hx))]
    exact Doc.get_setField_ne d kv.1 kv.2 k (h kv (List.mem_cons_self kv rest))

/-- Field values of a record after the Confirm write: status becomes
inprogress, the donor fields take the values from the request body, and
the id is untouched. -/
theorem get_confirmWriteFields (r : Doc) (dn de : Value) :
    (r.setFields (confirmWriteFields dn de)).get "status" = some (Value.vStr "inprogress") ∧
    (r.setFields (confirmWriteFields dn de)).get "donorName" = some dn ∧
    (r.setFields (confirmWriteFields dn de)).get "donorEmail" = some de ∧
    (r.setFields (confirmWriteFields dn de)).get "_id" = r.get "_id" := by
  have hunfold : r.setFields (confirmWriteFields dn de)
      = ((r.setField "status" (Value.vStr "inprogress")).setField "donorName" dn).setField
          "donorEmail" de := by
    simp [confirmWriteFields, Doc.setFields]
  refine ⟨?_, ?_, ?_, ?_⟩ <;> rw [hunfold]
  · rw [Doc.get_setField_ne _ _ _ _ (by decide), Doc.get_setField_ne _ _ _ _ (by decide)]
    exact Doc.get_setField_self _ _ _
  · rw [Doc.get_setField_ne _ _ _ _ (by decide)]
    exact Doc.get_setField_self _ _ _
  · exact Doc.get_setField_self _ _ _
  · rw [Doc.get_setField_ne _ _ _ _ (by decide), Doc.get_setField_ne _ _ _ _ (by decide),
      Doc.get_setField_ne _ _ _ _ (by decide)]

/-- A document returned by findOne matches the filter it was found by. -/
theorem Collection.findOne_matches (coll : Collection) (q : Doc) (r : Doc)
    (h : coll.findOne q = some r) : r.matchesFilter q = true := by
  induction coll with
  | nil => simp [Collection.findOne] at h
  | cons d rest ih =>
    rw [Collection.findOne] at h
    by_cases hd : d.matchesFilter q
    · simp only [hd, if_true, Option.some.injEq] at h
      exact h ▸ hd
    · simp only [hd, if_false] at h
      exact ih h

/-- Matching the id filter means having that id as the value of the id
field. -/
theorem Doc.matchesFilter_idQuery (d : Doc) (idStr : String) :
    d.matchesFilter (idQuery idStr) = true ↔ d.get "_id" = some (Value.vStr idStr) := by
  simp [Doc.matchesFilter, idQuery]

/-- After updateOne on the record found by the same filter, findOne returns
that record with the merge applied (provided the merged record still
matches the filter). -/
theorem Collection.findOne_updateOne (coll : Collection) (q fields : Doc) (r : Doc)
    (hfind : coll.findOne q = some r)
    (hmatch : (r.setFields fields).matchesFilter q = true) :
    (coll.updateOne q fields).findOne q = some (r.setFields fields) := by
  induction coll with
  | nil => simp [Collection.findOne] at hfind
  | cons d rest ih =>
    rw [Collection.findOne] at hfind
    rw [Collection.updateOne]
    by_cases hd : d.matchesFilter q
    · simp only [hd, if_true, Option.some.injEq] at hfind
      subst hfind
      rw [if_pos hd, Collection.findOne, if_pos hmatch]
    · rw [if_neg hd] at hfind
      rw [if_neg hd, Collection.findOne, if_neg hd]
      exact ih hfind

/-- A merge-update with the empty payload is the identity on a document. -/
theorem Doc.setFields_nil (d : Doc) : d.setFields [] = d := rfl

/-- updateOne with an empty set-payload leaves the collection unchanged. -/
theorem Collection.updateOne_nil_fields (coll : Collection) (q : Doc) :
    coll.updateOne q [] = coll := by
  induction coll with
  | nil => rfl
  | cons d rest ih =>
    rw [Collection.updateOne]
    by_cases hd : d.matchesFilter q
    · rw [if_pos hd, Doc.setFields_nil]
    · rw [if_neg hd, ih]

/-- Inserting into the sorted list is a permutation of consing. -/
theorem insertByNewest_perm (d : Doc) (l : List Doc) :
    (insertByNewest d l).Perm (d :: l) := by
  induction l with
  | nil => exact List.Perm.refl _
  | cons e rest ih =>
    rw [insertByNewest]
    by_cases hc : newestFirst e d
    · rw [if_pos hc]
      exact (ih.cons e).trans (List.Perm.swap d e rest)
    · rw [if_neg hc]

/-- The sort is a permutation of its input. -/
theorem sortByNewest_perm (l : List Doc) : (sortByNewest l).Perm l := by
  induction l with
  | nil => exact List.Perm.refl _
  | cons d rest ih =>
    rw [sortByNewest]
    exact (insertByNewest_perm d (sortByNewest rest)).trans (ih.cons d)

/-- Inserting into a list sorted by createdAt descending keeps it sorted. -/
theorem insertByNewest_pairwise (d : Doc) (l : List Doc)
    (h : l.Pairwise (fun a b => createdAtKey b ≤ createdAtKey a)) :
    (insertByNewest d l).Pairwise (fun a b => createdAtKey b ≤ createdAtKey a) := by
  induction l with
  | nil => simp [insertByNewest]
  | cons e rest ih =>
    rw [insertByNewest]
    rcases List.pairwise_cons.mp h with ⟨he, hrest⟩
    by_cases hc : newestFirst e d
    · rw [if_pos hc]
      refine List.pairwise_cons.mpr ⟨?_, ih hrest⟩
      intro x hx
      rcases List.mem_cons.mp ((insertByNewest_perm d rest).mem_iff.mp hx) with rfl | hx2
      · exact of_decide_eq_true hc
      · exact he x hx2
    · rw [if_neg hc]
      have hed : createdAtKey e ≤ createdAtKey d := by
        have := of_decide_eq_false (Bool.of_not_eq_true hc)
        omega
      refine List.pairwise_cons.mpr ⟨?_, h⟩
      intro x hx
      rcases List.mem_cons.mp hx with rfl | hx2
      · exact hed
      · exact le_trans (he x hx2) hed

/-- The sort output is sorted by createdAt descending. -/
theorem sortByNewest_pairwise (l : List Doc) :
    (sortByNewest l).Pairwise (fun a b => createdAtKey b ≤ createdAtKey a) := by
  induction l with
  | nil => simp [sortByNewest]
  | cons d rest ih => exact insertByNewest_pairwise d _ ih

/-- C1: for every Confirm call with a well-formed id by an authenticated
caller, the three preconditions are checked in order, each failing
independently with its own response: a missing record answers 404, a record
whose status is not pending answers 400 with a message naming the current
status, a record owned by the caller answers 403, and each failure leaves
the collection unchanged; otherwise the call answers 200 and the stored
record now has status inprogress together with the donor name and donor
email from the body.  The route consults no user record, so no role
condition is imposed on the caller. -/
theorem C1_confirm_preconditions (requests : Collection) (caller idStr : String)
    (dn de : Value) (hid : isValidObjectId idStr = true) :
    (requests.findOne (idQuery idStr) = none →
      confirmRoute requests caller idStr dn de
        = ({ code := 404, message := "Request not found." }, requests)) ∧
    (∀ r, requests.findOne (idQuery idStr) = some r →
      (r.get "status" ≠ some (Value.vStr "pending") →
        confirmRoute requests caller idStr dn de
          = ({ code := 400,
               message := "This request is already " ++ displayOpt (r.get "status") ++ "." },
             requests)) ∧
      (r.get "status" = some (Value.vStr "pending") →
        r.get "requesterEmail" = some (Value.vStr caller) →
        confirmRoute requests caller idStr dn de
          = ({ code := 403, message := "You cannot donate to your own request." }, requests)) ∧
      (r.get "status" = some (Value.vStr "pending") →
        r.get "requesterEmail" ≠ some (Value.vStr caller) →
        (confirmRoute requests caller idStr dn de).fst = { code := 200, message := "" } ∧
        ∃ r2, (confirmRoute requests caller idStr dn de).snd.findOne (idQuery idStr) = some r2 ∧
          r2.get "status" = some (Value.vStr "inprogress") ∧
          r2.get "donorName" = some dn ∧ r2.get "donorEmail" = some de)) := by
  refine ⟨?_, ?_⟩
  · intro hnone
    simp [confirmRoute, confirmCheck, hid, hnone]
  · intro r hr
    refine ⟨?_, ?_, ?_⟩
    · intro hst
      simp [confirmRoute, confirmCheck, hid, hr, hst]
    · intro hst hown
      simp [confirmRoute, confirmCheck, hid, hr, hst, hown]
    · intro hst hown
      have hresp : confirmRoute requests caller idStr dn de
          = ({ code := 200, message := "" }, confirmWrite requests idStr dn de) := by
        simp [confirmRoute, confirmCheck, hid, hr, hst, hown]
      rcases get_confirmWriteFields r dn de with ⟨h1, h2, h3, h4⟩
      have hmatch : (r.setFields (confirmWriteFields dn de)).matchesFilter (idQuery idStr)
          = true := by
        rw [Doc.matchesFilter_idQuery, h4]
        exact (Doc.matchesFilter_idQuery r idStr).mp
          (Collection.findOne_matches requests (idQuery idStr) r hr)
      refine ⟨by rw [hresp], r.setFields (confirmWriteFields dn de), ?_, h1, h2, h3⟩
      rw [hresp]
      exact Collection.findOne_updateOne requests (idQuery idStr) _ r hr hmatch

/-- C1 witness: on a concrete pending request, a self-confirmation by the
owner answers 403 and leaves the collection unchanged. -/
theorem C1_confirm_preconditions_witness :
    confirmRoute [pendingReq] "owner@x" vid (Value.vStr "A") (Value.vStr "a@x")
      = ({ code := 403, message := "You cannot donate to your own request." }, [pendingReq]) :=
  ((C1_confirm_preconditions [pendingReq] "owner@x" vid (Value.vStr "A") (Value.vStr "a@x")
      (by decide)).2 pendingReq (by decide)).2.1 (by decide) (by decide)

/-- C4: after a first successful Confirm on a pending request, a second
Confirm call on the same record (by any caller, with any donor payload)
fails with a 400 message citing the current status inprogress, and returns
the collection of the first call unchanged — so the status, donorName and
donorEmail written by the first Confirm are not altered by the failed
second call. -/
theorem C4_second_confirm_fails_unchanged (requests : Collection)
    (caller1 caller2 idStr : String) (dn de dn2 de2 : Value) (r : Doc)
    (hid : isValidObjectId idStr = true)
    (hr : requests.findOne (idQuery idStr) = some r)
    (hst : r.get "status" = some (Value.vStr "pending"))
    (hown : r.get "requesterEmail" ≠ some (Value.vStr caller1)) :
    (confirmRoute requests caller1 idStr dn de).fst = { code := 200, message := "" } ∧
    ∃ r1, (confirmRoute requests caller1 idStr dn de).snd.findOne (idQuery idStr) = some r1 ∧
      r1.get "status" = some (Value.vStr "inprogress") ∧
      r1.get "donorName" = some dn ∧ r1.get "donorEmail" = some de ∧
      confirmRoute (confirmRoute requests caller1 idStr dn de).snd caller2 idStr dn2 de2
        = ({ code := 400, message := "This request is already inprogress." },
           (confirmRoute requests caller1 idStr dn de).snd) := by
  have hresp : confirmRoute requests caller1 idStr dn de
      = ({ code := 200, message := "" }, confirmWrite requests idStr dn de) := by
    simp [confirmRoute, confirmCheck, hid, hr, hst, hown]
  rcases get_confirmWriteFields r dn de with ⟨h1, h2, h3, h4⟩
  have hmatch : (r.setFields (confirmWriteFields dn de)).matchesFilter (idQuery idStr)
      = true := by
    rw [Doc.matchesFilter_idQuery, h4]
    exact (Doc.matchesFilter_idQuery r idStr).mp
      (Collection.findOne_matches requests (idQuery idStr) r hr)
  have hfind1 : (confirmWrite requests idStr dn de).findOne (idQuery idStr)
      = some (r.setFields (confirmWriteFields dn de)) :=
    Collection.findOne_updateOne requests (idQuery idStr) _ r hr hmatch
  refine ⟨by rw [hresp], r.setFields (confirmWriteFields dn de), ?_, h1, h2, h3, ?_⟩
  · rw [hresp]; exact hfind1
  · rw [hresp]
    have hst1 : (r.setFields (confirmWriteFields dn de)).get "status"
        ≠ some (Value.vStr "pending") := by
      rw [h1]; simp
    have hmsg : "This request is already "
        ++ displayOpt ((r.setFields (confirmWriteFields dn de)).get "status") ++ "."
        = "This request is already inprogress." := by
      rw [h1]; rfl
    simp [confirmRoute, confirmCheck, hid, hfind1, hst1, hmsg]

/-- C4 witness: concretely, after Alice confirms the pending request, a
second Confirm by Bob fails citing inprogress and changes nothing. -/
theorem C4_second_confirm_fails_unchanged_witness :
    (confirmRoute [pendingReq] "alice@x" vid (Value.vStr "Alice")
        (Value.vStr "alice@x")).fst = { code := 200, message := "" } ∧
    ∃ r1, (confirmRoute [pendingReq] "alice@x" vid (Value.vStr "Alice")
        (Value.vStr "alice@x")).snd.findOne (idQuery vid) = some r1 ∧
      r1.get "status" = some (Value.vStr "inprogress") ∧
      r1.get "donorName" = some (Value.vStr "Alice") ∧
      r1.get "donorEmail" = some (Value.vStr "alice@x") ∧
      confirmRoute (confirmRoute [pendingReq] "alice@x" vid (Value.vStr "Alice")
          (Value.vStr "alice@x")).snd "bob@x" vid (Value.vStr "Bob") (Value.vStr "bob@x")
        = ({ code := 400, message := "This request is already inprogress." },
           (confirmRoute [pendingReq] "alice@x" vid (Value.vStr "Alice")
              (Value.vStr "alice@x")).snd) :=
  C4_second_confirm_fails_unchanged [pendingReq] "alice@x" "bob@x" vid
    (Value.vStr "Alice") (Value.vStr "alice@x") (Value.vStr "Bob") (Value.vStr "bob@x")
    pendingReq (by decide) (by decide) (by decide) (by decide)

/-- C2 counterexample: the payload with the single field status holding the
empty string contains exactly the status field, and the caller is a
volunteer who is not the requester, so the claim predicts the update is
applied; the code instead classifies the payload as a full edit (the status
value is falsy) and rejects the volunteer with 403, leaving the collection
unchanged. -/
theorem C2_counterexample :
    ([("status", Value.vStr "")] : Doc).length = 1 ∧
    Doc.get [("status", Value.vStr "")] "status" = some (Value.vStr "") ∧
    userRole [volunteerU] "v@x" = some (Value.vStr "volunteer") ∧
    Doc.get pendingReq "requesterEmail" ≠ some (Value.vStr "v@x") ∧
    updateRoute [volunteerU] [pendingReq] "v@x" vid [("status", Value.vStr "")]
      = ({ code := 403, message := "Forbidden: Not authorized to edit this request." },
         [pendingReq]) := by decide

/-- C2 as amended: the status-only authorization branch is taken exactly
when isStatusOnlyUpdate holds of the payload (one key and a truthy status
value), and then the update is applied if and only if the caller is the
requester or holds role admin or volunteer; for any other payload
(including a one-key payload with a falsy status) the update is applied if
and only if the caller is the requester or holds role admin; a missing
record answers 404. -/
theorem C2_update_authorization (users requests : Collection) (caller idStr : String)
    (updateData : Doc) (hid : isValidObjectId idStr = true) :
    (requests.findOne (idQuery idStr) = none →
      updateRoute users requests caller idStr updateData
        = ({ code := 404, message := "Request not found." }, requests)) ∧
    (∀ r, requests.findOne (idQuery idStr) = some r →
      (isStatusOnlyUpdate updateData = true →
        ((r.get "requesterEmail" = some (Value.vStr caller) ∨
          userRole users caller = some (Value.vStr "admin") ∨
          userRole users caller = some (Value.vStr "volunteer")) →
          updateRoute users requests caller idStr updateData
            = ({ code := 200, message := "" },
               requests.updateOne (idQuery idStr) updateData)) ∧
        (r.get "requesterEmail" ≠ some (Value.vStr caller) →
         userRole users caller ≠ some (Value.vStr "admin") →
         userRole users caller ≠ some (Value.vStr "volunteer") →
          updateRoute users requests caller idStr updateData
            = ({ code := 403, message := "Forbidden: Not authorized to update status." },
               requests))) ∧
      (isStatusOnlyUpdate updateData = false →
        ((r.get "requesterEmail" = some (Value.vStr caller) ∨
          userRole users caller = some (Value.vStr "admin")) →
          updateRoute users requests caller idStr updateData
            = ({ code := 200, message := "" },
               requests.updateOne (idQuery idStr) updateData)) ∧
        (r.get "requesterEmail" ≠ some (Value.vStr caller) →
         userRole users caller ≠ some (Value.vStr "admin") →
          updateRoute users requests caller idStr updateData
            = ({ code := 403, message := "Forbidden: Not authorized to edit this request." },
               requests)))) := by
  refine ⟨?_, ?_⟩
  · intro hnone
    simp [updateRoute, hid, hnone]
  · intro r hr
    refine ⟨fun hso => ⟨?_, ?_⟩, fun hso => ⟨?_, ?_⟩⟩
    · intro hauth
      have hcond : ¬(r.get "requesterEmail" ≠ some (Value.vStr caller) ∧
          userRole users caller ≠ some (Value.vStr "admin") ∧
          userRole users caller ≠ some (Value.vStr "volunteer")) := by tauto
      simp [updateRoute, hid, hr, hso, hcond]
    · intro h1 h2 h3
      simp [updateRoute, hid, hr, hso, h1, h2, h3]
    · intro hauth
      have hcond : ¬(r.get "requesterEmail" ≠ some (Value.vStr caller) ∧
          userRole users caller ≠ some (Value.vStr "admin")) := by tauto
      simp [updateRoute, hid, hr, hso, hcond]
    · intro h1 h2
      simp [updateRoute, hid, hr, hso, h1, h2]

/-- C2 witness: a volunteer who is not the owner updates someone else's
request with a truthy status-only payload, and the update is applied. -/
theorem C2_update_authorization_witness :
    updateRoute [volunteerU] [pendingReq] "v@x" vid [("status", Value.vStr "done")]
      = ({ code := 200, message := "" },
         Collection.updateOne [pendingReq] (idQuery vid) [("status", Value.vStr "done")]) :=
  (((C2_update_authorization [volunteerU] [pendingReq] "v@x" vid
        [("status", Value.vStr "done")] (by decide)).2 pendingReq (by decide)).1
      (by decide)).1 (Or.inr (Or.inr (by decide)))

/-- C10: a one-key payload binding status to a falsy value is not a
status-only update, so it is authorized as a full-field edit: a volunteer
who is not the owner is rejected with 403, while the owner or an admin
still has the update applied. -/
theorem C10_falsy_status_is_full_edit (users requests : Collection) (caller idStr : String)
    (v : Value) (r : Doc)
    (hid : isValidObjectId idStr = true)
    (hr : requests.findOne (idQuery idStr) = some r)
    (hfalsy : v.truthy = false) :
    isStatusOnlyUpdate [("status", v)] = false ∧
    (r.get "requesterEmail" ≠ some (Value.vStr caller) →
     userRole users caller = some (Value.vStr "volunteer") →
      updateRoute users requests caller idStr [("status", v)]
        = ({ code := 403, message := "Forbidden: Not authorized to edit this request." },
           requests)) ∧
    ((r.get "requesterEmail" = some (Value.vStr caller) ∨
      userRole users caller = some (Value.vStr "admin")) →
      updateRoute users requests caller idStr [("status", v)]
        = ({ code := 200, message := "" },
           requests.updateOne (idQuery idStr) [("status", v)])) := by
  have hso : isStatusOnlyUpdate [("status", v)] = false := by
    simp [isStatusOnlyUpdate, Doc.get, truthyOpt, hfalsy]
  refine ⟨hso, ?_, ?_⟩
  · intro h1 h2
    have h3 : userRole users caller ≠ some (Value.vStr "admin") := by
      rw [h2]; simp
    simp [updateRoute, hid, hr, hso, h1, h3]
  · intro hauth
    have hcond : ¬(r.get "requesterEmail" ≠ some (Value.vStr caller) ∧
        userRole users caller ≠ some (Value.vStr "admin")) := by tauto
    simp [updateRoute, hid, hr, hso, hcond]

/-- C10 witness: with the concrete payload binding status to the empty
string, the non-owner volunteer is rejected with 403. -/
theorem C10_falsy_status_is_full_edit_witness :
    updateRoute [volunteerU] [pendingReq] "v@x" vid [("status", Value.vStr "")]
      = ({ code := 403, message := "Forbidden: Not authorized to edit this request." },
         [pendingReq]) :=
  (C10_falsy_status_is_full_edit [volunteerU] [pendingReq] "v@x" vid (Value.vStr "")
      pendingReq (by decide) (by decide) (by decide)).2.1 (by decide) (by decide)

/-- C3: a caller whose stored user record has status blocked gets 403 from
Create and nothing is inserted — for any stored role, since the users
collection is arbitrary here; a caller whose status is not blocked has the
body inserted. -/
theorem C3_blocked_cannot_create (users requests : Collection) (caller : String)
    (body : Doc) :
    (userStatus users caller = some (Value.vStr "blocked") →
      createRoute users requests caller body
        = ({ code := 403,
             message := "Access Denied: Blocked users cannot create donation requests." },
           requests)) ∧
    (userStatus users caller ≠ some (Value.vStr "blocked") →
      createRoute users requests caller body
        = ({ code := 201, message := "" }, requests ++ [body])) := by
  constructor <;> intro h <;> simp [createRoute, h]

/-- C3 witness: a blocked user whose role is admin is still rejected, and
an active donor's insert proceeds. -/
theorem C3_blocked_cannot_create_witness :
    createRoute [blockedAdminU] [] "b@x" pendingReq
      = ({ code := 403,
           message := "Access Denied: Blocked users cannot create donation requests." },
         []) ∧
    createRoute [donorU] [] "c@x" pendingReq
      = ({ code := 201, message := "" }, [pendingReq]) :=
  ⟨(C3_blocked_cannot_create [blockedAdminU] [] "b@x" pendingReq).1 (by decide),
   (C3_blocked_cannot_create [donorU] [] "c@x" pendingReq).2 (by decide)⟩

/-- C5 counterexample: an active caller creates a request whose payload
carries status done; the call succeeds with 201 and the stored record's
status is done, not pending — the server does not force the initial
status. -/
theorem C5_counterexample :
    (createRoute [donorU] [] "c@x"
        [("requesterEmail", Value.vStr "c@x"), ("status", Value.vStr "done")]).fst.code
      = 201 ∧
    ((createRoute [donorU] [] "c@x"
          [("requesterEmail", Value.vStr "c@x"), ("status", Value.vStr "done")]).snd.findOne
        [("requesterEmail", Value.vStr "c@x")]).bind (fun d => d.get "status")
      = some (Value.vStr "done") ∧
    ((createRoute [donorU] [] "c@x"
          [("requesterEmail", Value.vStr "c@x"), ("status", Value.vStr "done")]).snd.findOne
        [("requesterEmail", Value.vStr "c@x")]).bind (fun d => d.get "status")
      ≠ some (Value.vStr "pending") := by decide

/-- C5 as amended: every successful Create inserts the client payload
verbatim, so the stored record's status equals whatever status field the
payload carries (and is absent when the payload omits it); the server does
not set status to pending. -/
theorem C5_create_inserts_payload_verbatim (users requests : Collection) (caller : String)
    (body : Doc) (h : userStatus users caller ≠ some (Value.vStr "blocked")) :
    createRoute users requests caller body
      = ({ code := 201, message := "" }, requests ++ [body]) := by
  simp [createRoute, h]

/-- C5 witness: a concrete active donor's create call appends exactly the
supplied body. -/
theorem C5_create_inserts_payload_verbatim_witness :
    createRoute [donorU] [] "c@x" [("requesterEmail", Value.vStr "c@x")]
      = ({ code := 201, message := "" }, [[("requesterEmail", Value.vStr "c@x")]]) :=
  C5_create_inserts_payload_verbatim [donorU] [] "c@x"
    [("requesterEmail", Value.vStr "c@x")] (by decide)

/-- C6: the code does not re-assert the pending status in the update
filter, so two interleaved Confirm calls on the same pending request both
succeed.  With one pending request and the interleaving read by Alice, read
by Bob, write by Alice, write by Bob: both read-phase checks pass against
the pending snapshot (so both calls answer 200, since the write phase is
unconditional once the check passed), both writes match the id-only filter,
and Bob's write silently overwrites the donor fields Alice attached — the
lost-update race the claim requires the filter to prevent. -/
theorem C6_lost_update_race :
    confirmCheck [pendingReq] "alice@x" vid = none ∧
    confirmCheck [pendingReq] "bob@x" vid = none ∧
    ((confirmWrite (confirmWrite [pendingReq] vid (Value.vStr "Alice") (Value.vStr "alice@x"))
          vid (Value.vStr "Bob") (Value.vStr "bob@x")).findOne (idQuery vid)).bind
        (fun d => d.get "donorEmail")
      = some (Value.vStr "bob@x") ∧
    ((confirmWrite (confirmWrite [pendingReq] vid (Value.vStr "Alice") (Value.vStr "alice@x"))
          vid (Value.vStr "Bob") (Value.vStr "bob@x")).findOne (idQuery vid)).bind
        (fun d => d.get "donorEmail")
      ≠ some (Value.vStr "alice@x") := by decide

/-- C7 counterexample: on the malformed identifier xyz, Confirm and Delete
answer 500 (the ObjectId constructor throws and the catch block reports a
generic failure), not the 400 validation error the claim requires for all
three identifier-taking operations. -/
theorem C7_counterexample :
    isValidObjectId "xyz" = false ∧
    confirmRoute [pendingReq] "alice@x" "xyz" Value.vNull Value.vNull
      = ({ code := 500, message := "Failed to confirm donation." }, [pendingReq]) ∧
    deleteRoute [donorU] [pendingReq] "c@x" "xyz"
      = ({ code := 500, message := "Failed to delete request." }, [pendingReq]) := by decide

/-- C7 as amended: on a malformed identifier, none of the three operations
reaches the store (the collection is returned unchanged in each case), but
only UpdateStatusOrFields fails fast with the 400 validation error; Confirm
and Delete surface the thrown ObjectId construction error as a generic
500. -/
theorem C7_malformed_id_behavior (users requests : Collection) (caller idStr : String)
    (dn de : Value) (updateData : Doc) (h : isValidObjectId idStr = false) :
    updateRoute users requests caller idStr updateData
      = ({ code := 400, message := "Invalid ID format." }, requests) ∧
    confirmRoute requests caller idStr dn de
      = ({ code := 500, message := "Failed to confirm donation." }, requests) ∧
    deleteRoute users requests caller idStr
      = ({ code := 500, message := "Failed to delete request." }, requests) := by
  refine ⟨?_, ?_, ?_⟩ <;> simp [updateRoute, confirmRoute, confirmCheck, deleteRoute, h]

/-- C7 witness: the amended behavior at the concrete malformed id xyz. -/
theorem C7_malformed_id_behavior_witness :
    updateRoute [donorU] [pendingReq] "c@x" "xyz" [("status", Value.vStr "done")]
      = ({ code := 400, message := "Invalid ID format." }, [pendingReq]) ∧
    confirmRoute [pendingReq] "c@x" "xyz" Value.vNull Value.vNull
      = ({ code := 500, message := "Failed to confirm donation." }, [pendingReq]) ∧
    deleteRoute [donorU] [pendingReq] "c@x" "xyz"
      = ({ code := 500, message := "Failed to delete request." }, [pendingReq]) :=
  C7_malformed_id_behavior [donorU] [pendingReq] "c@x" "xyz" Value.vNull Value.vNull
    [("status", Value.vStr "done")] (by decide)

/-- A document matching the my-requests filter belongs to the caller, and
carries the filtered status when a real status filter is present. -/
theorem matchesFilter_myRequestsQuery (d : Doc) (caller : String) (sq : Option String)
    (h : d.matchesFilter (myRequestsQuery caller sq) = true) :
    d.get "requesterEmail" = some (Value.vStr caller) ∧
    (∀ s, sq = some s → s ≠ "" → s ≠ "all" → d.get "status" = some (Value.vStr s)) := by
  rcases sq with _ | s
  · refine ⟨?_, ?_⟩
    · simpa [Doc.matchesFilter, myRequestsQuery] using h
    · intro s hs
      cases hs
  · by_cases hc : s ≠ "" ∧ s ≠ "all"
    · have h2 : d.get "requesterEmail" = some (Value.vStr caller) ∧
          d.get "status" = some (Value.vStr s) := by
        simpa [Doc.matchesFilter, myRequestsQuery, hc] using h
      refine ⟨h2.1, ?_⟩
      intro s2 hs2 _ _
      cases hs2
      exact h2.2
    · have h2 : d.get "requesterEmail" = some (Value.vStr caller) := by
        simpa [Doc.matchesFilter, myRequestsQuery, hc] using h
      refine ⟨h2, ?_⟩
      intro s2 hs2 hne1 hne2
      cases hs2
      exact absurd ⟨hne1, hne2⟩ hc

/-- Every document the my-requests route returns matches the route's
filter. -/
theorem myRequestsRoute_mem_matches (requests : Collection) (caller : String)
    (sq : Option String) (limit : Int) (d : Doc)
    (hd : d ∈ myRequestsRoute requests caller sq limit) :
    d.matchesFilter (myRequestsQuery caller sq) = true := by
  have hd2 : d ∈ sortByNewest
      (requests.filter (fun e => e.matchesFilter (myRequestsQuery caller sq))) := by
    by_cases hl : limit > 0
    · rw [myRequestsRoute, if_pos hl] at hd
      exact List.mem_of_mem_take hd
    · rw [myRequestsRoute, if_neg hl] at hd
      exact hd
  have hd3 := (sortByNewest_perm _).mem_iff.mp hd2
  exact (List.mem_filter.mp hd3).2

/-- C8: the my-requests listing returns at most limit records when the
limit is positive; every returned record belongs to the caller; the output
is ordered by creation timestamp descending; a non-positive limit (0, the
fallback for an absent or unparsable query parameter) returns the whole
matching set, as a permutation of the filtered collection; and a real
status filter restricts the output to records of that status. -/
theorem C8_my_requests_listing (requests : Collection) (caller : String)
    (sq : Option String) (limit : Int) :
    (0 < limit → (myRequestsRoute requests caller sq limit).length ≤ limit.toNat) ∧
    (∀ d ∈ myRequestsRoute requests caller sq limit,
      d.get "requesterEmail" = some (Value.vStr caller)) ∧
    (myRequestsRoute requests caller sq limit).Pairwise
      (fun a b => createdAtKey b ≤ createdAtKey a) ∧
    (limit ≤ 0 → (myRequestsRoute requests caller sq limit).Perm
      (requests.filter (fun d => d.matchesFilter (myRequestsQuery caller sq)))) ∧
    (∀ s, sq = some s → s ≠ "" → s ≠ "all" →
      ∀ d ∈ myRequestsRoute requests caller sq limit,
        d.get "status" = some (Value.vStr s)) := by
  refine ⟨?_, ?_, ?_, ?_, ?_⟩
  · intro hpos
    rw [myRequestsRoute, if_pos hpos]
    exact List.length_take_le _ _
  · intro d hd
    exact (matchesFilter_myRequestsQuery d caller sq
      (myRequestsRoute_mem_matches requests caller sq limit d hd)).1
  · have hsorted := sortByNewest_pairwise
      (requests.filter (fun e => e.matchesFilter (myRequestsQuery caller sq)))
    by_cases hl : limit > 0
    · rw [myRequestsRoute, if_pos hl]
      exact hsorted.sublist (List.take_sublist _ _)
    · rw [myRequestsRoute, if_neg hl]
      exact hsorted
  · intro hle
    have hl : ¬limit > 0 := by omega
    rw [myRequestsRoute, if_neg hl]
    exact sortByNewest_perm _
  · intro s hs hne1 hne2 d hd
    exact (matchesFilter_myRequestsQuery d caller sq
      (myRequestsRoute_mem_matches requests caller sq limit d hd)).2 s hs hne1 hne2

/-- C8 witness: with two stored requests of the same owner, a limit of one
returns at most one record, and a limit of zero with the status filter done
returns exactly the matching set. -/
theorem C8_my_requests_listing_witness :
    (myRequestsRoute [pendingReq, doneReq] "owner@x" none 1).length ≤ 1 ∧
    (myRequestsRoute [pendingReq, doneReq] "owner@x" (some "done") 0).Perm
      (([pendingReq, doneReq] : Collection).filter
        (fun d => d.matchesFilter (myRequestsQuery "owner@x" (some "done")))) :=
  ⟨(C8_my_requests_listing [pendingReq, doneReq] "owner@x" none 1).1 (by decide),
   (C8_my_requests_listing [pendingReq, doneReq] "owner@x" (some "done") 0).2.2.2.1
     (by decide)⟩

/-- C9: an empty update payload on an existing record by an authorized
caller (the requester, or an admin — the empty payload is not status-only,
so the full-edit rule applies) is accepted with a success response, and the
merge is a no-op: the collection is returned unchanged. -/
theorem C9_empty_update_is_noop (users requests : Collection) (caller idStr : String)
    (r : Doc)
    (hid : isValidObjectId idStr = true)
    (hr : requests.findOne (idQuery idStr) = some r)
    (hauth : r.get "requesterEmail" = some (Value.vStr caller) ∨
      userRole users caller = some (Value.vStr "admin")) :
    updateRoute users requests caller idStr []
      = ({ code := 200, message := "" }, requests) := by
  have hso : isStatusOnlyUpdate ([] : Doc) = false := by decide
  have hcond : ¬(r.get "requesterEmail" ≠ some (Value.vStr caller) ∧
      userRole users caller ≠ some (Value.vStr "admin")) := by tauto
  simp [updateRoute, hid, hr, hso, hcond, Collection.updateOne_nil_fields]

/-- C9 witness: the owner sends the empty payload on their own stored
request; the call answers 200 and the collection is unchanged. -/
theorem C9_empty_update_is_noop_witness :
    updateRoute [donorU] [pendingReq] "owner@x" vid []
      = ({ code := 200, message := "" }, [pendingReq]) :=
  C9_empty_update_is_noop [donorU] [pendingReq] "owner@x" vid pendingReq
    (by decide) (by decide) (Or.inl (by decide))

end BloodConnect
